import Mathlib

/-!
Shallow embedding of `bmail/text_mailer.py` (class `TextMailer`).

Python values that may be `None` are modelled as `Option`; Python's truthiness
operator `x or y` on strings is modelled by `pyOrS` / `pyOrStr`; a raised
Python exception is an `Except.error` carrying a `PyError`.  The SMTP client
(`smtplib.SMTP`) and the logger are external collaborators: the SMTP client is
modelled as an oracle (`SmtpBehavior`) saying which calls raise, and every call
made to the client or the logger is recorded in an event trace, so that
"no network activity" and call order are provable statements.
-/

namespace Bmail

/-- Python exceptions, as far as `text_mailer.py` can surface them. -/
inductive PyError where
  | attributeError (obj attr : String)
  | keyError (k : String)
  | typeError (msg : String)
  | unicodeDecodeError
  | smtpError (msg : String)
  | other (msg : String)
deriving DecidableEq, Repr

/-- Display form of an error, standing in for Python's `str(exc)` as used by
`self.log("Emailer exception:", sys.exc_info()[1], ...)`. -/
def PyError.msgStr : PyError → String
  | .attributeError obj attr => "AttributeError: " ++ obj ++ " object has no attribute " ++ attr
  | .keyError k => "KeyError: " ++ k
  | .typeError m => "TypeError: " ++ m
  | .unicodeDecodeError => "UnicodeDecodeError"
  | .smtpError m => "SMTPException: " ++ m
  | .other m => m

/-- Stand-in for `traceback.format_exc()` applied to the caught error. -/
def tracebackFormat (e : PyError) : String :=
  "Traceback (most recent call last): " ++ e.msgStr

/-- Characters stripped by Python's `str.strip()` (ASCII whitespace). -/
def isPySpace (c : Char) : Bool :=
  c = ' ' || c = '\t' || c = '\n' || c = '\x0d' || c = '\x0b' || c = '\x0c'

/-- Python `s.strip()`. -/
def pyStrip (s : String) : String :=
  String.mk (((s.data.dropWhile isPySpace).reverse.dropWhile isPySpace).reverse)

/-- Python `x or y` where `x` is a possibly-`None` string and the result may
still be `None`: `None` and `""` are falsy. -/
def pyOrS : Option String → Option String → Option String
  | some s, y => if s = "" then y else some s
  | none, y => y

/-- Python `x or d` where `d` is a (truthy or final) plain-string default. -/
def pyOrStr : Option String → String → String
  | some s, d => if s = "" then d else s
  | none, d => d

/-- Python `str(x)` on a possibly-`None` string, as the logger would print it. -/
def optStr : Option String → String
  | some s => s
  | none => "None"

/-- Is `b` a UTF-8 continuation byte (`0x80 ≤ b < 0xC0`)? -/
def isUtf8Cont (b : Nat) : Bool := 0x80 ≤ b && b < 0xC0

/-- Strict UTF-8 decoding of a byte list into code points; `none` on invalid
input (mirrors Python `bytes.decode('UTF-8')` raising `UnicodeDecodeError`).
Overlong forms, surrogates and out-of-range code points are rejected. -/
def utf8DecodeList : List Nat → Option (List Nat)
  | [] => some []
  | b :: rest =>
    if b < 0x80 then (utf8DecodeList rest).map (b :: ·)
    else if b < 0xC2 then none
    else if b < 0xE0 then
      match rest with
      | c1 :: rest2 =>
        if isUtf8Cont c1 then
          (utf8DecodeList rest2).map (((b - 0xC0) * 64 + (c1 - 0x80)) :: ·)
        else none
      | [] => none
    else if b < 0xF0 then
      match rest with
      | c1 :: c2 :: rest2 =>
        if isUtf8Cont c1 && isUtf8Cont c2 then
          let cp := (b - 0xE0) * 4096 + (c1 - 0x80) * 64 + (c2 - 0x80)
          if cp < 0x800 || (0xD800 ≤ cp && cp < 0xE000) then none
          else (utf8DecodeList rest2).map (cp :: ·)
        else none
      | _ => none
    else if b < 0xF5 then
      match rest with
      | c1 :: c2 :: c3 :: rest2 =>
        if isUtf8Cont c1 && isUtf8Cont c2 && isUtf8Cont c3 then
          let cp := (b - 0xF0) * 262144 + (c1 - 0x80) * 4096 + (c2 - 0x80) * 64 + (c3 - 0x80)
          if cp < 0x10000 || 0x110000 ≤ cp then none
          else (utf8DecodeList rest2).map (cp :: ·)
        else none
      | _ => none
    else none

/-- Python `b.decode('UTF-8')`, `none` meaning a raised `UnicodeDecodeError`. -/
def utf8Decode (bs : List Nat) : Option String :=
  (utf8DecodeList bs).map (fun cps => String.mk (cps.map Char.ofNat))

/-- UTF-8 encoding of one code point (used only to build concrete byte inputs). -/
def utf8EncodeChar (c : Nat) : List Nat :=
  if c < 0x80 then [c]
  else if c < 0x800 then [0xC0 + c / 64, 0x80 + c % 64]
  else if c < 0x10000 then [0xE0 + c / 4096, 0x80 + c / 64 % 64, 0x80 + c % 64]
  else [0xF0 + c / 262144, 0x80 + c / 4096 % 64, 0x80 + c / 64 % 64, 0x80 + c % 64]

/-- UTF-8 encoding of a string as a byte list. -/
def utf8Encode (s : String) : List Nat :=
  s.data.foldr (fun ch acc => utf8EncodeChar ch.toNat ++ acc) []

/-- Rendering context: the keyword arguments passed to a template (string keys,
possibly-`None` string values; richer Python values do not reach the mailer's
own logic). -/
abbrev Ctx := List (String × Option String)

/-- Possible results of a template capability call: Python text or Python
bytes (the `type(r)==type(b'')` check in `render` distinguishes exactly these;
the source passes any other type through unchanged, which no claim exercises). -/
inductive Rendered where
  | text (s : String)
  | bytes (b : List Nat)

/-- A loaded template object: its two capabilities, `render(**context)` and
`generate(**context)`, each of which may raise. -/
structure Renderable where
  render : Ctx → Except PyError Rendered
  generate : Ctx → Except PyError Rendered

/-- The `template` argument of `TextMailer.render`: a string name, or an
already-loaded template object (`type(template)==str` dispatch). -/
inductive TemplateRef where
  | str (name : String)
  | obj (t : Renderable)

/-- A Python `str` viewed through the template capability surface: it has
neither a `render` nor a `generate` attribute, so each call raises
`AttributeError` (this is what the source does when the loader is `None`
and `template` is still a string). -/
def strAsTemplate (_name : String) : Renderable :=
  { render := fun _ => .error (.attributeError "str" "render"),
    generate := fun _ => .error (.attributeError "str" "generate") }

/-- The `TextMailer` configuration: a `bl.dict.Dict` whose absent keys read as
`None`, hence every field is an `Option` (except `debug`, where only the exact
value `True` enables debug logging, so `Bool` is faithful: `self.debug==True`
and `self.debug and 1 or 0` agree on this quotient).  `loader` is set by
`__init__` exactly when `template_path` is given; the loader itself is the
external collaborator `load(name) -> renderable`. -/
structure Mailer where
  loader : Option (String → Renderable)
  host : Option String
  port : Option Nat
  from_address : Option String
  to_address : Option String
  delivery : Option String
  username : Option String
  password : Option String
  debug : Bool

/-- Tail of `TextMailer.render`: `if type(r)==type(b''): r = r.decode('UTF-8')`
applied to the outcome of the capability call. -/
def normalizeRendered : Except PyError Rendered → Except PyError String
  | .error e => .error e
  | .ok (.text s) => .ok s
  | .ok (.bytes b) =>
    match utf8Decode b with
    | some s => .ok s
    | none => .error .unicodeDecodeError

/-- Embedding of `TextMailer.render`.  Note the bare `except:` in the source:
ANY exception from `template.render(**context)` — not only a missing-attribute
signal — falls back to `template.generate(**context)`. -/
def Mailer.render (m : Mailer) (template : TemplateRef) (context : Ctx) :
    Except PyError String :=
  let t : Renderable :=
    match template, m.loader with
    | .str name, some load => load name
    | .str name, none => strAsTemplate name
    | .obj t, _ => t
  normalizeRendered <|
    match t.render context with
    | .ok r => .ok r
    | .error _ => t.generate context

/-- An `email.mime.text.MIMEText` message as `text_mailer.py` uses it: an
ordered header list (values may be `None`, since `msg['From'] = ...` and
`msg['Subject'] = ...` store whatever they are given) plus the text body.
`MIMEText` itself contributes the two MIME boilerplate headers up front. -/
structure PyMessage where
  headers : List (String × Option String)
  body : String
deriving DecidableEq, Repr

/-- Python `msg[name]`: the value of the first header with that name,
`None` when absent (or when the stored value is itself `None`). -/
def PyMessage.get (msg : PyMessage) (name : String) : Option String :=
  (msg.headers.find? (fun h => h.1 = name)).bind (fun h => h.2)

/-- Python `msg.get_all(name)`: all values of headers with that name, in
order, or `None` when there are none. -/
def PyMessage.get_all (msg : PyMessage) (name : String) :
    Option (List (Option String)) :=
  let vals := (msg.headers.filter (fun h => h.1 = name)).map (fun h => h.2)
  if vals.isEmpty then none else some vals

/-- All values of headers with the given name (the `[]`-defaulted view the
theorems use; `msg.get_all name |>.getD []`). -/
def PyMessage.headerVals (msg : PyMessage) (name : String) : List (Option String) :=
  (msg.headers.filter (fun h => h.1 = name)).map (fun h => h.2)

/-- Python `msg.as_string()`: the serialized message, headers then a blank
line then the body (abstracting the `email` generator's exact formatting,
which the mailer never inspects). -/
def PyMessage.as_string (msg : PyMessage) : String :=
  String.join (msg.headers.map (fun h => h.1 ++ ": " ++ optStr h.2 ++ "\n"))
    ++ "\n" ++ msg.body

/-- One loop `for addr in [addr for addr in s.split(',') if addr.strip() != '']:
msg.add_header(name, addr.strip())` of `TextMailer.message`. -/
def addrHeaders (name : String) (s : String) : List (String × Option String) :=
  ((s.splitOn ",").filter (fun a => pyStrip a ≠ "")).map
    (fun a => (name, some (pyStrip a)))

/-- Tokenization of an address string as §8 of the spec words it: "split on
commas, trim whitespace from each token, discard empty tokens", preserving
order.  This definition follows the spec's wording (map then filter); the
source's `message` filters first and strips inside the loop, and claim C5 is
settled by proving the two agree. -/
def specAddrTokens (s : String) : List String :=
  ((s.splitOn ",").map pyStrip).filter (fun t => t ≠ "")

/-- Embedding of `TextMailer.message`.  When a template is given, the body is
rendered with a context that merges the caller's context with
`to_addr or self.to_address`, `from_addr`, `cc`, `bcc` (a raised rendering
error propagates); `MIMEText(None)` raises `TypeError`. -/
def Mailer.message (m : Mailer) (template : Option TemplateRef)
    (text to_addr subject from_addr cc bcc : Option String) (context : Ctx) :
    Except PyError PyMessage := do
  let text ←
    match template with
    | some t =>
      (m.render t ([("to_addr", pyOrS to_addr m.to_address),
                    ("from_addr", from_addr), ("cc", cc), ("bcc", bcc)]
                   ++ context)).map some
    | none => pure text
  match text with
  | none => .error (.typeError "expected str instance, NoneType found")
  | some body =>
    .ok { headers :=
            [("Content-Type", some "text/plain; charset=\x22us-ascii\x22"),
             ("MIME-Version", some "1.0"),
             ("Content-Transfer-Encoding", some "7bit"),
             ("From", pyOrS from_addr m.from_address),
             ("Subject", subject)]
            ++ addrHeaders "To" (pyOrStr (pyOrS to_addr m.to_address) "")
            ++ addrHeaders "Cc" (pyOrStr cc "")
            ++ addrHeaders "Bcc" (pyOrStr bcc ""),
          body := body }

/-- Calls `TextMailer.send` makes on its collaborators, in order: SMTP client
calls, debug log lines (`self.log(...)`), and error-stream log lines
(`self.log(..., file=sys.stderr)`). -/
inductive Event where
  | connect (host : String) (port : Option Nat)
  | set_debuglevel (level : Nat)
  | login (user pass : String)
  | sendmail (fromaddr : Option String) (toaddr : String) (body : String)
  | quit
  | log (line : String)
  | logErr (line : String)
deriving DecidableEq, Repr

/-- Is the event an SMTP-client call (as opposed to a logger call)? -/
def Event.isSmtpCall : Event → Bool
  | .log _ => false
  | .logErr _ => false
  | _ => true

/-- The `(fromaddr, toaddr, body)` arguments of the `sendmail` calls in a
trace, in order. -/
def sendmailCalls (evs : List Event) : List (Option String × String × String) :=
  evs.filterMap fun ev =>
    match ev with
    | .sendmail f t b => some (f, t, b)
    | _ => none

/-- The `(user, pass)` arguments of the `login` calls in a trace, in order. -/
def loginCalls (evs : List Event) : List (String × String) :=
  evs.filterMap fun ev =>
    match ev with
    | .login u p => some (u, p)
    | _ => none

/-- Oracle for the external SMTP client: which of the mailer's calls raise.
`sendmail i` is consulted for the `i`-th `sendmail` call (0-based). -/
structure SmtpBehavior where
  connect : Option PyError
  setDebug : Option PyError
  login : Option PyError
  sendmail : Nat → Option PyError
  quit : Option PyError

/-- The recipient list `tolist` that `send` builds: all To, then Cc, then Bcc
header values, dropping `None` and whitespace-only entries (entries are NOT
stripped, only filtered). -/
def sendRecipients (msg : PyMessage) : List String :=
  (((msg.get_all "To").getD []) ++ ((msg.get_all "Cc").getD [])
     ++ ((msg.get_all "Bcc").getD [])).filterMap
    (fun a =>
      match a with
      | some s => if pyStrip s = "" then none else some s
      | none => none)

/-- The per-recipient loop of `send`: debug-log the target, then call
`sendmail`; the first raised exception aborts the rest of the loop.  `i` is
the index of the next `sendmail` call for the oracle. -/
def sendLoop (beh : SmtpBehavior) (debug : Bool) (fromaddr : Option String)
    (body : String) : List String → Nat → List Event × Option PyError
  | [], _ => ([], none)
  | toaddr :: rest, i =>
    let logEvs : List Event := if debug then [.log ("To = " ++ toaddr)] else []
    match beh.sendmail i with
    | some e => (logEvs ++ [.sendmail fromaddr toaddr body], some e)
    | none =>
      let (evs, r) := sendLoop beh debug fromaddr body rest (i + 1)
      (logEvs ++ .sendmail fromaddr toaddr body :: evs, r)

/-- Run one SMTP-client call: the call is recorded, and if the oracle says it
raises, nothing after it runs. -/
def smtpStep (ev : Event) (fail : Option PyError)
    (rest : List Event × Option PyError) : List Event × Option PyError :=
  match fail with
  | some e => ([ev], some e)
  | none => (ev :: rest.1, rest.2)

/-- The per-recipient loop followed by `smtpclient.quit()` (the part of the
`try:` block after authentication): a loop failure skips `quit`. -/
def loopThenQuit (beh : SmtpBehavior) (debug : Bool) (fromaddr : Option String)
    (body : String) (tolist : List String) : List Event × Option PyError :=
  let (evs, r) := sendLoop beh debug fromaddr body tolist 0
  match r with
  | some e => (evs, some e)
  | none =>
    let (qevs, qr) := smtpStep .quit beh.quit ([], none)
    (evs ++ qevs, qr)

/-- The body of the `try:` block of `send` in SMTP mode: connect,
`set_debuglevel`, conditional `login`, the per-recipient loop, `quit`.
Returns the calls made and the exception that escaped the block, if any. -/
def Mailer.smtpTransaction (m : Mailer) (beh : SmtpBehavior)
    (fromaddr : Option String) (tolist : List String) (body : String) :
    List Event × Option PyError :=
  smtpStep (.connect (pyOrStr m.host "127.0.0.1") m.port) beh.connect <|
  smtpStep (.set_debuglevel (if m.debug then 1 else 0)) beh.setDebug <|
  match m.username, m.password with
  | some u, some p =>
    smtpStep (.login u p) beh.login (loopThenQuit beh m.debug fromaddr body tolist)
  | _, _ => loopThenQuit beh m.debug fromaddr body tolist

/-- Result of `TextMailer.send`: Python `None` (success, or an unrecognized
delivery mode falling off the end), the dry-run text (test mode), or the
returned — not raised — exception object. -/
inductive SendResult where
  | none
  | dryRun (s : String)
  | err (e : PyError)
deriving DecidableEq, Repr

/-- Embedding of `TextMailer.send`: the delivery result together with the
trace of all collaborator calls it made. -/
def Mailer.send (m : Mailer) (beh : SmtpBehavior) (msg : PyMessage) :
    SendResult × List Event :=
  if m.delivery = some "test" then
    (.dryRun msg.as_string, [])
  else if m.delivery = some "smtp" then
    let fromaddr := msg.get "From"
    let fromLog : List Event :=
      if m.debug then [.log ("From = " ++ optStr fromaddr)] else []
    let tolist := sendRecipients msg
    let (evs, r) := m.smtpTransaction beh fromaddr tolist msg.as_string
    match r with
    | none => (.none, fromLog ++ evs)
    | some e =>
      let logEv : Event :=
        if m.debug then .log (tracebackFormat e)
        else .logErr ("Emailer exception: " ++ e.msgStr)
      (.err e, fromLog ++ evs ++ [logEv])
  else
    (.none, [])

/-- Embedding of `TextMailer.send_message` (build, then send; a rendering
error from `message` propagates before any delivery is attempted). -/
def Mailer.send_message (m : Mailer) (beh : SmtpBehavior)
    (template : TemplateRef) (to_addr subject from_addr cc bcc : Option String)
    (context : Ctx) : Except PyError (SendResult × List Event) :=
  (m.message (some template) none to_addr subject from_addr cc bcc context).map
    (fun msg => m.send beh msg)

/-! ### Concrete fixtures for witnesses and counterexamples -/

/-- A fully configured mailer in test mode, with no template loader. -/
def sampleMailer : Mailer :=
  { loader := none, host := some "mail.example.com", port := some 2525,
    from_address := some "from@example.com",
    to_address := some "default@example.com", delivery := some "test",
    username := some "user", password := some "hunter2", debug := false }

/-- The same mailer in SMTP mode. -/
def sampleSmtpMailer : Mailer := { sampleMailer with delivery := some "smtp" }

/-- An SMTP collaborator on which every call succeeds. -/
def behaviorOk : SmtpBehavior :=
  { connect := none, setDebug := none, login := none,
    sendmail := fun _ => none, quit := none }

/-- An SMTP collaborator whose connection attempt raises. -/
def behaviorNoConnect : SmtpBehavior :=
  { behaviorOk with connect := some (.smtpError "connection refused") }

/-- An SMTP collaborator whose second `sendmail` call raises. -/
def behaviorFailSecond : SmtpBehavior :=
  { behaviorOk with
      sendmail := fun i => if i = 1 then some (.smtpError "550 refused") else none }

/-- A concrete message with a duplicated To recipient and a Cc recipient. -/
def sampleMsg : PyMessage :=
  { headers := [("From", some "from@example.com"), ("To", some "a@x.com"),
                ("To", some "a@x.com"), ("Cc", some "c@x.com")],
    body := "hello" }

/-- A template whose primary capability raises a missing-context-variable
error (`KeyError`), while its fallback capability succeeds. -/
def fragileTemplate : Renderable :=
  { render := fun _ => .error (.keyError "name"),
    generate := fun _ => .ok (.text "generated fallback") }

/-- A streaming-style template: no usable `render` attribute, and a
`generate` capability producing UTF-8 bytes. -/
def streamTemplate : Renderable :=
  { render := fun _ => .error (.attributeError "Template" "render"),
    generate := fun _ => .ok (.bytes (utf8Encode "héllo")) }

/-! ### Helper lemmas -/

/-- Filtering out blank-stripping tokens and then stripping is the same as
stripping every token and then dropping the empty ones. -/
theorem filter_strip_map (l : List String) :
    ((l.filter (fun a => pyStrip a ≠ "")).map pyStrip)
      = (l.map pyStrip).filter (fun t => t ≠ "") := by
  exact (List.filter_map (p := fun t => decide (t ≠ "")) pyStrip l).symm

/-- The header values produced by one address loop are exactly the
spec-worded tokens of the input string. -/
theorem addrHeaders_vals (name s : String) :
    (addrHeaders name s).map (fun h => h.2) = (specAddrTokens s).map some := by
  simp only [addrHeaders, specAddrTokens, List.map_map, ← filter_strip_map]
  rfl

/-- Every header produced by `addrHeaders name s` is named `name`. -/
theorem addrHeaders_filter_name (n name s : String) :
    (addrHeaders n s).filter (fun h => h.1 = name)
      = if n = name then addrHeaders n s else [] := by
  by_cases h : n = name
  · subst h
    simp [addrHeaders, List.filter_map, Function.comp_def]
  · simp [addrHeaders, List.filter_map, Function.comp_def, h]

/-- `message` with no template and a text body, unfolded. -/
theorem message_no_template (m : Mailer) (txt : String)
    (to_addr subject from_addr cc bcc : Option String) (context : Ctx) :
    m.message none (some txt) to_addr subject from_addr cc bcc context =
      .ok { headers :=
              [("Content-Type", some "text/plain; charset=\x22us-ascii\x22"),
               ("MIME-Version", some "1.0"),
               ("Content-Transfer-Encoding", some "7bit"),
               ("From", pyOrS from_addr m.from_address),
               ("Subject", subject)]
              ++ addrHeaders "To" (pyOrStr (pyOrS to_addr m.to_address) "")
              ++ addrHeaders "Cc" (pyOrStr cc "")
              ++ addrHeaders "Bcc" (pyOrStr bcc ""),
            body := txt } := rfl

/-- When no `sendmail` call raises, the per-recipient loop succeeds and makes
exactly one `sendmail` call per recipient, in order, with the shared
from-address and serialized body. -/
theorem sendLoop_all_ok (beh : SmtpBehavior) (dbg : Bool) (f : Option String)
    (b : String) (hok : ∀ i, beh.sendmail i = none) :
    ∀ (l : List String) (s : Nat),
      (sendLoop beh dbg f b l s).2 = none ∧
      sendmailCalls (sendLoop beh dbg f b l s).1
        = l.map (fun t => (f, t, b)) := by
  intro l
  induction l with
  | nil => intro s; simp [sendLoop, sendmailCalls]
  | cons hd tl ih =>
    intro s
    obtain ⟨h2, h1⟩ := ih (s + 1)
    rcases hL : sendLoop beh dbg f b tl (s + 1) with ⟨evs, r⟩
    rw [hL] at h2 h1
    cases dbg <;>
      simp_all [sendLoop, hok s, sendmailCalls]

/-- When the `i`-th `sendmail` call is the first to raise, the loop attempts
exactly the first `i + 1` recipients and surfaces that error. -/
theorem sendLoop_first_fail (beh : SmtpBehavior) (dbg : Bool)
    (f : Option String) (b : String) (e : PyError) :
    ∀ (l : List String) (s k : Nat), k < l.length →
      (∀ j, j < k → beh.sendmail (s + j) = none) →
      beh.sendmail (s + k) = some e →
      (sendLoop beh dbg f b l s).2 = some e ∧
      sendmailCalls (sendLoop beh dbg f b l s).1
        = (l.take (k + 1)).map (fun t => (f, t, b)) := by
  intro l
  induction l with
  | nil => intro s k hk; simp at hk
  | cons hd tl ih =>
    intro s k hk hpre hfail
    cases k with
    | zero =>
      have h0 : beh.sendmail s = some e := by simpa using hfail
      cases dbg <;> simp [sendLoop, h0, sendmailCalls]
    | succ k2 =>
      have h0 : beh.sendmail s = none := by simpa using hpre 0 (by omega)
      have hpre2 : ∀ j, j < k2 → beh.sendmail (s + 1 + j) = none := by
        intro j hj
        have harith : s + 1 + j = s + (j + 1) := by omega
        rw [harith]; exact hpre (j + 1) (by omega)
      have hfail2 : beh.sendmail (s + 1 + k2) = some e := by
        have harith : s + 1 + k2 = s + (k2 + 1) := by omega
        rw [harith]; exact hfail
      obtain ⟨h2, h1⟩ := ih (s + 1) k2 (by simpa using hk) hpre2 hfail2
      rcases hL : sendLoop beh dbg f b tl (s + 1) with ⟨evs, r⟩
      rw [hL] at h2 h1
      cases dbg <;> simp_all [sendLoop, h0, sendmailCalls]

/-- The per-recipient loop never calls `login`. -/
theorem sendLoop_no_login (beh : SmtpBehavior) (dbg : Bool) (f : Option String)
    (b : String) :
    ∀ (l : List String) (s : Nat),
      loginCalls (sendLoop beh dbg f b l s).1 = [] := by
  intro l
  induction l with
  | nil => intro s; simp [sendLoop, loginCalls]
  | cons hd tl ih =>
    intro s
    have h1 := ih (s + 1)
    rcases hL : sendLoop beh dbg f b tl (s + 1) with ⟨evs, r⟩
    rw [hL] at h1
    cases dbg <;> cases hsm : beh.sendmail s <;>
      simp_all [sendLoop, loginCalls]

/-- Loop-then-quit never calls `login`. -/
theorem loopThenQuit_no_login (beh : SmtpBehavior) (dbg : Bool)
    (f : Option String) (b : String) (l : List String) :
    loginCalls (loopThenQuit beh dbg f b l).1 = [] := by
  have h1 := sendLoop_no_login beh dbg f b l 0
  rcases hL : sendLoop beh dbg f b l 0 with ⟨evs, r⟩
  rw [hL] at h1
  cases r <;> cases hq : beh.quit <;>
    simp_all [loopThenQuit, smtpStep, loginCalls]

/-- Loop-then-quit under an all-successful `sendmail` oracle: its `sendmail`
calls are one per recipient and its outcome is the `quit` outcome. -/
theorem loopThenQuit_all_ok (beh : SmtpBehavior) (dbg : Bool)
    (f : Option String) (b : String) (l : List String)
    (hok : ∀ i, beh.sendmail i = none) :
    (loopThenQuit beh dbg f b l).2 = beh.quit ∧
    sendmailCalls (loopThenQuit beh dbg f b l).1
      = l.map (fun t => (f, t, b)) := by
  obtain ⟨h2, h1⟩ := sendLoop_all_ok beh dbg f b hok l 0
  rcases hL : sendLoop beh dbg f b l 0 with ⟨evs, r⟩
  rw [hL] at h2 h1
  subst h2
  cases hq : beh.quit <;>
    simp_all [loopThenQuit, smtpStep, sendmailCalls]

/-- Loop-then-quit when the `k`-th `sendmail` call is the first to raise:
the error escapes, and exactly the first `k + 1` recipients were attempted. -/
theorem loopThenQuit_first_fail (beh : SmtpBehavior) (dbg : Bool)
    (f : Option String) (b : String) (l : List String) (k : Nat) (e : PyError)
    (hk : k < l.length) (hpre : ∀ j, j < k → beh.sendmail j = none)
    (hfail : beh.sendmail k = some e) :
    (loopThenQuit beh dbg f b l).2 = some e ∧
    sendmailCalls (loopThenQuit beh dbg f b l).1
      = (l.take (k + 1)).map (fun t => (f, t, b)) := by
  obtain ⟨h2, h1⟩ := sendLoop_first_fail beh dbg f b e l 0 k hk
    (fun j hj => by simpa using hpre j hj) (by simpa using hfail)
  rcases hL : sendLoop beh dbg f b l 0 with ⟨evs, r⟩
  rw [hL] at h2 h1
  subst h2
  simp_all [loopThenQuit, sendmailCalls]

/-! ### Claim theorems -/

/-- C2: for every message and every mailer whose delivery mode is `test`,
`send` returns exactly the message's full serialized text (headers plus body)
and makes no collaborator calls at all — in particular no SMTP client calls —
whatever the SMTP configuration fields hold. -/
theorem send_test_mode_returns_serialization (m : Mailer) (beh : SmtpBehavior)
    (msg : PyMessage) (h : m.delivery = some "test") :
    m.send beh msg = (.dryRun msg.as_string, []) := by
  simp [Mailer.send, h]

/-- Witness for C2 at a concrete mailer and message. -/
theorem send_test_mode_returns_serialization_witness :
    sampleMailer.send behaviorOk sampleMsg = (.dryRun sampleMsg.as_string, []) :=
  send_test_mode_returns_serialization sampleMailer behaviorOk sampleMsg rfl

/-- C4: on a mailer with no template loader configured, `render` with a
string template name fails: the name is never resolved, and the two
capability calls on the raw string raise `AttributeError` (the situation the
spec's taxonomy labels a configuration error). -/
theorem render_string_template_without_loader_fails (m : Mailer)
    (name : String) (context : Ctx) (h : m.loader = none) :
    m.render (.str name) context = .error (.attributeError "str" "generate") := by
  simp [Mailer.render, h, strAsTemplate, normalizeRendered]

/-- Witness for C4 at a concrete loaderless mailer. -/
theorem render_string_template_without_loader_fails_witness :
    sampleMailer.render (.str "welcome.txt") [] =
      .error (.attributeError "str" "generate") :=
  render_string_template_without_loader_fails sampleMailer "welcome.txt" [] rfl

/-- C3 counterexample: `fragileTemplate`'s primary capability raises a
`KeyError` — a failure that is not an "unsupported operation" signal — yet
`render` does not propagate it: the bare `except:` catches it and the
fallback `generate` result is returned. -/
theorem render_keyerror_swallowed_counterexample :
    fragileTemplate.render [] = .error (.keyError "name") ∧
    sampleMailer.render (.obj fragileTemplate) [] = .ok "generated fallback" :=
  ⟨rfl, rfl⟩

/-- C3 (amended): every failure of the primary rendering capability —
whatever its kind — is caught and triggers the fallback to `generate`; what
the caller sees is the normalized outcome of the `generate` call (so a
failure propagates only when `generate` also fails, and it is the
`generate` failure that propagates). -/
theorem render_any_failure_falls_back (m : Mailer) (t : Renderable)
    (context : Ctx) (e : PyError) (hfail : t.render context = .error e) :
    m.render (.obj t) context = normalizeRendered (t.generate context) := by
  simp [Mailer.render, hfail]

/-- Witness for the amended C3 at the concrete fragile template. -/
theorem render_any_failure_falls_back_witness :
    sampleMailer.render (.obj fragileTemplate) [] =
      normalizeRendered (fragileTemplate.generate []) :=
  render_any_failure_falls_back sampleMailer fragileTemplate []
    (.keyError "name") rfl

/-- C9: when the primary rendering capability raises a missing-attribute
("unsupported") signal, `render` falls back to `generate` and returns its
output, decoding raw bytes as UTF-8 and passing text through unchanged. -/
theorem render_unsupported_falls_back_to_generate (m : Mailer)
    (t : Renderable) (context : Ctx) (obj attr : String)
    (r : Rendered) (hfail : t.render context = .error (.attributeError obj attr))
    (hgen : t.generate context = .ok r) :
    m.render (.obj t) context =
      (match r with
       | .text s => .ok s
       | .bytes b =>
         match utf8Decode b with
         | some s => .ok s
         | none => .error .unicodeDecodeError) := by
  cases r <;> simp [Mailer.render, hfail, hgen, normalizeRendered]

/-- Witness for C9: the concrete streaming template's bytes output is
decoded back to the text it encodes. -/
theorem render_unsupported_falls_back_to_generate_witness :
    sampleMailer.render (.obj streamTemplate) [] = .ok "héllo" :=
  render_unsupported_falls_back_to_generate sampleMailer streamTemplate []
    "Template" "render" (.bytes (utf8Encode "héllo")) rfl rfl

/-- C10: with a non-empty default to-address configured, passing
`to_addr=""` to `message` is the same as not passing it at all — the
fallback `to_addr or self.to_address` tests truthiness, not presence — and
the default address supplies the To headers. -/
theorem message_empty_to_addr_uses_default (m : Mailer) (txt d : String)
    (subject from_addr cc bcc : Option String) (context : Ctx)
    (hdef : m.to_address = some d) (hne : d ≠ "") :
    m.message none (some txt) (some "") subject from_addr cc bcc context =
      m.message none (some txt) none subject from_addr cc bcc context ∧
    ∃ msg, m.message none (some txt) (some "") subject from_addr cc bcc context
        = .ok msg ∧
      msg.headerVals "To" = (specAddrTokens d).map some := by
  constructor
  · simp [Mailer.message, pyOrS]
  · refine ⟨_, message_no_template m txt (some "") subject from_addr cc bcc context, ?_⟩
    simp +decide [PyMessage.headerVals, List.filter_append, hdef, pyOrS, pyOrStr,
      hne, addrHeaders_filter_name, addrHeaders_vals]

/-- C5: for every comma-separated address string given as the To, Cc, or Bcc
argument of `message`, the builder succeeds and adds exactly one header
instance per trimmed non-empty token, in the original token order; an
all-blank string yields zero headers for its field rather than an error. -/
theorem message_recipient_headers_tokenized (m : Mailer) (txt toS ccS bccS : String)
    (subject from_addr : Option String) (context : Ctx)
    (hto : m.to_address = none) :
    ∃ msg,
      m.message none (some txt) (some toS) subject from_addr (some ccS)
          (some bccS) context = .ok msg ∧
      msg.headerVals "To" = (specAddrTokens toS).map some ∧
      msg.headerVals "Cc" = (specAddrTokens ccS).map some ∧
      msg.headerVals "Bcc" = (specAddrTokens bccS).map some := by
  have heff : pyOrStr (pyOrS (some toS) m.to_address) "" = toS := by
    by_cases h : toS = "" <;> simp [pyOrS, pyOrStr, h, hto]
  have hcc : ∀ s : String, pyOrStr (some s) "" = s := by
    intro s; by_cases h : s = "" <;> simp [pyOrStr, h]
  refine ⟨_, message_no_template m txt (some toS) subject from_addr (some ccS)
    (some bccS) context, ?_, ?_, ?_⟩ <;>
    simp +decide [PyMessage.headerVals, List.filter_append, heff, hcc,
      addrHeaders_filter_name, addrHeaders_vals]

/-- Witness for C5 at the spec's own example string (and an all-blank Bcc). -/
theorem message_recipient_headers_tokenized_witness :
    ∃ msg,
      ({ sampleMailer with to_address := none } : Mailer).message none
          (some "hello") (some " a@x.com ,, b@y.com , ") (some "subj") none
          (some "c@x.com") (some " , ,") [] = .ok msg ∧
      msg.headerVals "To" = (specAddrTokens " a@x.com ,, b@y.com , ").map some ∧
      msg.headerVals "Cc" = (specAddrTokens "c@x.com").map some ∧
      msg.headerVals "Bcc" = (specAddrTokens " , ,").map some :=
  message_recipient_headers_tokenized { sampleMailer with to_address := none }
    "hello" " a@x.com ,, b@y.com , " "c@x.com" " , ," (some "subj") none [] rfl

/-- C1: in SMTP mode, whenever any step of the delivery transaction
(connecting, setting the debug level, authenticating, a per-recipient
submission, or quitting) raises an error, `send` catches it, logs it — a
full trace when debug is set, a one-line summary to the error stream
otherwise — and returns the caught error object as its value.  `send` is a
total function into `SendResult`: a delivery error is never re-raised. -/
theorem send_smtp_returns_caught_error (m : Mailer) (beh : SmtpBehavior)
    (msg : PyMessage) (e : PyError) (hd : m.delivery = some "smtp")
    (hfail : (m.smtpTransaction beh (msg.get "From") (sendRecipients msg)
        msg.as_string).2 = some e) :
    (m.send beh msg).1 = .err e ∧
    ∃ evs, (m.send beh msg).2 =
      evs ++ [if m.debug then Event.log (tracebackFormat e)
              else Event.logErr ("Emailer exception: " ++ e.msgStr)] := by
  rcases hT : m.smtpTransaction beh (msg.get "From") (sendRecipients msg)
    msg.as_string with ⟨tevs, r⟩
  rw [hT] at hfail
  simp only at hfail
  subst hfail
  constructor
  · simp [Mailer.send, hd, hT]
  · refine ⟨(if m.debug then [Event.log ("From = " ++ optStr (msg.get "From"))]
      else []) ++ tevs, ?_⟩
    simp [Mailer.send, hd, hT]

/-- Witness for C1: a refused connection is returned, not raised, and the
trace ends with the one-line error log. -/
theorem send_smtp_returns_caught_error_witness :
    (sampleSmtpMailer.send behaviorNoConnect sampleMsg).1 =
      .err (.smtpError "connection refused") ∧
    ∃ evs, (sampleSmtpMailer.send behaviorNoConnect sampleMsg).2 =
      evs ++ [if sampleSmtpMailer.debug
              then Event.log (tracebackFormat (.smtpError "connection refused"))
              else Event.logErr ("Emailer exception: "
                     ++ (PyError.smtpError "connection refused").msgStr)] :=
  send_smtp_returns_caught_error sampleSmtpMailer behaviorNoConnect sampleMsg
    (.smtpError "connection refused") rfl rfl

/-- C6: in SMTP mode with a fully successful SMTP client, `send` calls
`sendmail` exactly once per entry of the recipient list — all To values,
then all Cc values, then all Bcc values, nulls and blank entries dropped,
no deduplication — each time with the shared From value and the full
serialized message body. -/
theorem send_smtp_sendmail_per_recipient (m : Mailer) (beh : SmtpBehavior)
    (msg : PyMessage) (hd : m.delivery = some "smtp")
    (hc : beh.connect = none) (hsd : beh.setDebug = none)
    (hlg : beh.login = none) (hsm : ∀ i, beh.sendmail i = none) :
    sendmailCalls (m.send beh msg).2 =
      (sendRecipients msg).map (fun t => (msg.get "From", t, msg.as_string)) := by
  obtain ⟨h2, h1⟩ := loopThenQuit_all_ok beh m.debug (msg.get "From")
    msg.as_string (sendRecipients msg) hsm
  rcases hL : loopThenQuit beh m.debug (msg.get "From") msg.as_string
    (sendRecipients msg) with ⟨evs, r⟩
  rw [hL] at h2 h1
  subst h2
  rcases hu : m.username with _ | u <;> rcases hp : m.password with _ | p <;>
    cases hq : beh.quit <;> cases hdbg : m.debug <;>
      simp_all [Mailer.send, hd, Mailer.smtpTransaction, smtpStep, hc, hsd,
        hlg, sendmailCalls]

/-- Witness for C6: three submissions for the three collected recipients of
the concrete message (the duplicated To address gets two copies). -/
theorem send_smtp_sendmail_per_recipient_witness :
    sendmailCalls (sampleSmtpMailer.send behaviorOk sampleMsg).2 =
      (sendRecipients sampleMsg).map
        (fun t => (sampleMsg.get "From", t, sampleMsg.as_string)) :=
  send_smtp_sendmail_per_recipient sampleSmtpMailer behaviorOk sampleMsg
    rfl rfl rfl rfl (fun _ => rfl)

/-- C7: in SMTP mode, if the `k`-th per-recipient submission is the first to
raise, no later recipient is attempted: exactly the first `k + 1`
submissions happen, and `send` returns the caught error. -/
theorem send_smtp_aborts_on_first_sendmail_error (m : Mailer)
    (beh : SmtpBehavior) (msg : PyMessage) (k : Nat) (e : PyError)
    (hd : m.delivery = some "smtp") (hc : beh.connect = none)
    (hsd : beh.setDebug = none) (hlg : beh.login = none)
    (hk : k < (sendRecipients msg).length)
    (hpre : ∀ j, j < k → beh.sendmail j = none)
    (hfail : beh.sendmail k = some e) :
    (m.send beh msg).1 = .err e ∧
    sendmailCalls (m.send beh msg).2 =
      ((sendRecipients msg).take (k + 1)).map
        (fun t => (msg.get "From", t, msg.as_string)) := by
  obtain ⟨h2, h1⟩ := loopThenQuit_first_fail beh m.debug (msg.get "From")
    msg.as_string (sendRecipients msg) k e hk hpre hfail
  rcases hL : loopThenQuit beh m.debug (msg.get "From") msg.as_string
    (sendRecipients msg) with ⟨evs, r⟩
  rw [hL] at h2 h1
  subst h2
  rcases hu : m.username with _ | u <;> rcases hp : m.password with _ | p <;>
    cases hdbg : m.debug <;>
      simp_all [Mailer.send, hd, Mailer.smtpTransaction, smtpStep, hc, hsd,
        hlg, sendmailCalls]

/-- Witness for C7: the second of three submissions raises; only the first
two recipients are attempted and the error is the returned value. -/
theorem send_smtp_aborts_on_first_sendmail_error_witness :
    (sampleSmtpMailer.send behaviorFailSecond sampleMsg).1 =
      .err (.smtpError "550 refused") ∧
    sendmailCalls (sampleSmtpMailer.send behaviorFailSecond sampleMsg).2 =
      ((sendRecipients sampleMsg).take 2).map
        (fun t => (sampleMsg.get "From", t, sampleMsg.as_string)) :=
  send_smtp_aborts_on_first_sendmail_error sampleSmtpMailer behaviorFailSecond
    sampleMsg 1 (.smtpError "550 refused") rfl rfl rfl rfl (by decide)
    (fun j hj => by
      have hj0 : j = 0 := by omega
      subst hj0; rfl)
    rfl

/-- C8: in SMTP mode (with the connection steps succeeding), `send` calls
`login` exactly when both username and password are configured — with those
credentials, once — and that call comes right after `connect` and
`set_debuglevel`, before any per-recipient submission; with either
credential absent, no `login` call occurs at all. -/
theorem send_smtp_login_iff_credentials (m : Mailer) (beh : SmtpBehavior)
    (msg : PyMessage) (hd : m.delivery = some "smtp")
    (hc : beh.connect = none) (hsd : beh.setDebug = none) :
    loginCalls (m.send beh msg).2 =
      (match m.username, m.password with
       | some u, some p => [(u, p)]
       | _, _ => []) ∧
    (∀ u p, m.username = some u → m.password = some p →
      ((m.send beh msg).2.filter Event.isSmtpCall).take 3 =
        [Event.connect (pyOrStr m.host "127.0.0.1") m.port,
         Event.set_debuglevel (if m.debug then 1 else 0),
         Event.login u p]) := by
  have hnl := loopThenQuit_no_login beh m.debug (msg.get "From") msg.as_string
    (sendRecipients msg)
  rcases hL : loopThenQuit beh m.debug (msg.get "From") msg.as_string
    (sendRecipients msg) with ⟨evs, r⟩
  rw [hL] at hnl
  constructor
  · rcases hu : m.username with _ | u <;> rcases hp : m.password with _ | p <;>
      cases hlg : beh.login <;> cases hr : r <;> cases hdbg : m.debug <;>
        simp_all [Mailer.send, hd, Mailer.smtpTransaction, smtpStep, hc, hsd,
          loginCalls]
  · intro u p hu hp
    cases hlg : beh.login <;> cases hr : r <;> cases hdbg : m.debug <;>
      simp_all [Mailer.send, hd, Mailer.smtpTransaction, smtpStep, hc, hsd,
        Event.isSmtpCall]

/-- Witness for C8 at a credentialed mailer over a successful client. -/
theorem send_smtp_login_iff_credentials_witness :
    loginCalls (sampleSmtpMailer.send behaviorOk sampleMsg).2 =
      (match sampleSmtpMailer.username, sampleSmtpMailer.password with
       | some u, some p => [(u, p)]
       | _, _ => []) ∧
    (∀ u p, sampleSmtpMailer.username = some u →
      sampleSmtpMailer.password = some p →
      ((sampleSmtpMailer.send behaviorOk sampleMsg).2.filter
          Event.isSmtpCall).take 3 =
        [Event.connect (pyOrStr sampleSmtpMailer.host "127.0.0.1")
           sampleSmtpMailer.port,
         Event.set_debuglevel (if sampleSmtpMailer.debug then 1 else 0),
         Event.login u p]) :=
  send_smtp_login_iff_credentials sampleSmtpMailer behaviorOk sampleMsg
    rfl rfl rfl

/-- Witness for C10 at a concrete mailer with a configured default. -/
theorem message_empty_to_addr_uses_default_witness :
    sampleMailer.message none (some "hello") (some "") (some "s") none none
        none [] =
      sampleMailer.message none (some "hello") none (some "s") none none
        none [] ∧
    ∃ msg, sampleMailer.message none (some "hello") (some "") (some "s") none
        none none [] = .ok msg ∧
      msg.headerVals "To" = (specAddrTokens "default@example.com").map some :=
  message_empty_to_addr_uses_default sampleMailer "hello"
    "default@example.com" (some "s") none none none [] rfl (by decide)

end Bmail
